import Mathlib

/-!
Shallow embedding of `src/backend/gl/src/window/glutin.rs` (the glutin window
backend of gfx): format negotiation, capability reporting, adapter
enumeration and the presentation stub, together with the parts of the
surrounding crates (gfx-hal format tables, `PhysicalDevice::new_adapter`,
the shared-context-handle failure contract) that the file uses but whose
source is not part of this tree; those are modelled from the spec and marked
as such in their doc comments.
-/

set_option linter.unusedVariables false

/-- Abstract format identifiers (gfx-hal `format::Format`), restricted to the
variants this backend's negotiation touches: the four 8-bit color formats of
the swapchain table plus two depth/stencil formats usable as `ds_format`. -/
inductive Format where
  | Rgba8Unorm
  | Rgba8Srgb
  | Bgra8Unorm
  | Bgra8Srgb
  | D32Sfloat
  | D24UnormS8Uint
  deriving DecidableEq, Repr

/-- Modelled from the spec: the channel-encoding tag (linear vs sRGB) of
gfx-hal `format::ChannelType`, which is declared outside this tree
("a decomposition into per-channel bit counts and a channel-encoding tag
(linear vs. sRGB)"). -/
inductive ChannelType where
  | Unorm
  | Srgb
  | Sfloat
  deriving DecidableEq, Repr

/-- Modelled from the spec: the bit-layout component of gfx-hal
`format::SurfaceType`, declared outside this tree. -/
inductive SurfaceType where
  | R8_G8_B8_A8
  | B8_G8_R8_A8
  | D32
  | D24_S8
  deriving DecidableEq, Repr

/-- Per-channel bit counts (gfx-hal `format::FormatBits`). -/
structure FormatBits where
  color : Nat
  alpha : Nat
  depth : Nat
  stencil : Nat
  deriving DecidableEq, Repr

/-- Modelled from the spec: gfx-hal `format::BITS_ZERO`, the all-zero bit
record used when no depth/stencil format is supplied. -/
def BITS_ZERO : FormatBits := ⟨0, 0, 0, 0⟩

/-- Modelled from the spec: gfx-hal `Format::base_format`, the decomposition
of an abstract format into its surface type and channel-encoding tag. -/
def Format.base_format : Format → SurfaceType × ChannelType
  | .Rgba8Unorm => (.R8_G8_B8_A8, .Unorm)
  | .Rgba8Srgb => (.R8_G8_B8_A8, .Srgb)
  | .Bgra8Unorm => (.B8_G8_R8_A8, .Unorm)
  | .Bgra8Srgb => (.B8_G8_R8_A8, .Srgb)
  | .D32Sfloat => (.D32, .Sfloat)
  | .D24UnormS8Uint => (.D24_S8, .Unorm)

/-- Modelled from the spec: gfx-hal `SurfaceType::describe_bits`, the
per-channel bit counts of a surface type (8-bit RGBA layouts carry 24 color
bits and 8 alpha bits; depth/stencil layouts carry only depth/stencil bits). -/
def SurfaceType.describe_bits : SurfaceType → FormatBits
  | .R8_G8_B8_A8 => ⟨24, 8, 0, 0⟩
  | .B8_G8_R8_A8 => ⟨24, 8, 0, 0⟩
  | .D32 => ⟨0, 0, 32, 0⟩
  | .D24_S8 => ⟨0, 0, 24, 8⟩

/-- Per-channel bit counts of a format, through its base format. -/
def Format.bits (f : Format) : FormatBits :=
  f.base_format.1.describe_bits

/-- Channel-encoding tag of a format, through its base format. -/
def Format.channel_type (f : Format) : ChannelType :=
  f.base_format.2

/-- glutin `PixelFormat` (external collaborator): the fields this backend
reads from the native pixel-format descriptor. -/
structure PixelFormat where
  color_bits : Nat
  alpha_bits : Nat
  srgb : Bool
  double_buffer : Bool
  multisampling : Option Nat
  deriving DecidableEq, Repr

/-- The native window (external collaborator), modelled by the physical pixel
size it reports; the logical-size-to-physical-size DPI conversion performed
inside `get_window_extent` happens in the windowing system and is modelled as
the resulting physical size. -/
structure Window where
  width : Nat
  height : Nat
  deriving DecidableEq, Repr

/-- hal `image::Extent`. -/
structure Extent where
  width : Nat
  height : Nat
  depth : Nat
  deriving DecidableEq, Repr

/-- hal `window::Extent2D`. -/
structure Extent2D where
  width : Nat
  height : Nat
  deriving DecidableEq, Repr

/-- Modulus of the `image::Size` (`u32`) machine type. -/
def U32_MOD : Nat := 2 ^ 32

/-- `get_window_extent`: queries the window's physical size and returns it as
an extent of depth 1 (the `as image::Size` casts reduce the size into `u32`
range). -/
def get_window_extent (window : Window) : Extent :=
  { width := window.width % U32_MOD
    height := window.height % U32_MOD
    depth := 1 }

/-- glutin `WindowedContext` (external collaborator) as observed by this
backend: the window, the negotiated native pixel format, the native
symbol-resolution call (`get_proc_address`; `none` models a null address) and
the driver-reported context-loss flag of the spec's NativeContext model. -/
structure WindowedContext where
  window : Window
  pixel_format : PixelFormat
  get_proc_address : String → Option Nat
  lost : Bool

/-- glutin headless `Context` (external collaborator): symbol resolution and
the loss flag only, no window. -/
structure RawContext where
  get_proc_address : String → Option Nat
  lost : Bool

/-- `Surface`: wraps one shared windowed context (the `Starc` reference
counting is not observable in the pure model, so the handle is the context
itself). -/
structure Surface where
  context : WindowedContext

/-- `Headless`: wraps one shared headless context. -/
structure Headless where
  context : RawContext

/-- `Surface::swapchain_formats`: the closed reporting table from the native
pixel format to the abstract format list. -/
def Surface.swapchain_formats (s : Surface) : List Format :=
  let pixel_format := s.context.pixel_format
  let color_bits := pixel_format.color_bits
  let alpha_bits := pixel_format.alpha_bits
  let srgb := pixel_format.srgb
  match color_bits, alpha_bits, srgb with
  | 24, 8, true => [.Rgba8Srgb, .Bgra8Srgb]
  | 24, 8, false => [.Rgba8Unorm, .Bgra8Unorm]
  | _, _, _ => []

/-- glutin `ContextBuilder` (external collaborator): the configuration request
fields this backend sets. -/
structure ContextBuilder where
  depth_bits : Nat
  stencil_bits : Nat
  color_bits : Nat
  alpha_bits : Nat
  srgb : Bool
  deriving DecidableEq, Repr

/-- glutin `ContextBuilder::with_depth_buffer`. -/
def ContextBuilder.with_depth_buffer (b : ContextBuilder) (bits : Nat) : ContextBuilder :=
  { b with depth_bits := bits }

/-- glutin `ContextBuilder::with_stencil_buffer`. -/
def ContextBuilder.with_stencil_buffer (b : ContextBuilder) (bits : Nat) : ContextBuilder :=
  { b with stencil_bits := bits }

/-- glutin `ContextBuilder::with_pixel_format`. -/
def ContextBuilder.with_pixel_format (b : ContextBuilder) (color alpha : Nat) : ContextBuilder :=
  { b with color_bits := color, alpha_bits := alpha }

/-- glutin `ContextBuilder::with_srgb`. -/
def ContextBuilder.with_srgb (b : ContextBuilder) (flag : Bool) : ContextBuilder :=
  { b with srgb := flag }

/-- `config_context`: configure a glutin builder for the requested color
format and optional depth/stencil format. -/
def config_context (builder : ContextBuilder) (color_format : Format)
    (ds_format : Option Format) : ContextBuilder :=
  let color_base := color_format.base_format
  let color_bits := color_base.1.describe_bits
  let depth_bits := match ds_format with
    | some fm => fm.base_format.1.describe_bits
    | none => BITS_ZERO
  ((((builder.with_depth_buffer depth_bits.depth).with_stencil_buffer
      depth_bits.stencil).with_pixel_format color_bits.color
      color_bits.alpha).with_srgb (color_base.2 == ChannelType.Srgb))

/-- The color formats of the swapchain reporting table. -/
def supported_color_formats : List Format :=
  [.Rgba8Srgb, .Bgra8Srgb, .Rgba8Unorm, .Bgra8Unorm]

/-- Modelled from the spec: the windowing system attempting to honor a
configuration request, in the successful case — the resulting native pixel
format carries exactly the requested color/alpha bit counts and sRGB flag
("produce a configuration request with explicit ... bit counts ...; the
windowing system then attempts to honor them or fails"). -/
def honored_pixel_format (cfg : ContextBuilder) (double_buffer : Bool)
    (multisampling : Option Nat) : PixelFormat :=
  { color_bits := cfg.color_bits
    alpha_bits := cfg.alpha_bits
    srgb := cfg.srgb
    double_buffer := double_buffer
    multisampling := multisampling }

/-- A surface over a context whose pixel format honors the configuration
request produced by `config_context`. -/
def configured_surface (builder : ContextBuilder) (color_format : Format)
    (ds_format : Option Format) (double_buffer : Bool) (multisampling : Option Nat)
    (w : Window) (gpa : String → Option Nat) : Surface :=
  ⟨⟨w, honored_pixel_format (config_context builder color_format ds_format)
      double_buffer multisampling, gpa, false⟩⟩

/-- hal `image::Kind`. -/
inductive ImageKind where
  | D1 (width : Nat) (layers : Nat)
  | D2 (width : Nat) (height : Nat) (layers : Nat) (samples : Nat)
  | D3 (width : Nat) (height : Nat) (depth : Nat)
  deriving DecidableEq, Repr

/-- hal `PresentMode`. -/
inductive PresentMode where
  | Immediate
  | Mailbox
  | Fifo
  | Relaxed
  deriving DecidableEq, Repr

/-- hal `image::Usage::TRANSFER_SRC` bit. -/
def TRANSFER_SRC : Nat := 1

/-- hal `image::Usage::COLOR_ATTACHMENT` bit. -/
def COLOR_ATTACHMENT : Nat := 16

/-- hal `CompositeAlpha::OPAQUE` bit. -/
def OPAQUE : Nat := 1

/-- hal `SurfaceCapabilities`; the two ranges are half-open `(start, stop)`
pairs. -/
structure SurfaceCapabilities where
  image_count : Nat × Nat
  current_extent : Option Extent2D
  extents : Extent2D × Extent2D
  max_image_layers : Nat
  usage : Nat
  composite_alpha : Nat
  deriving DecidableEq, Repr

/-- hal `QueueFamily` of this backend (a single universal family). -/
structure QueueFamily where
  deriving DecidableEq, Repr

/-- hal `From<image::Extent> for Extent2D`. -/
def Extent2D.from_extent (ex : Extent) : Extent2D :=
  ⟨ex.width, ex.height⟩

/-- `Surface::kind`: the window extent as a 2D image kind with the pixel
format's sample count (`multisampling.unwrap_or(1)`, cast to the 8-bit
`NumSamples`). -/
def Surface.kind (s : Surface) : ImageKind :=
  let ex := get_window_extent s.context.window
  let samples := (s.context.pixel_format.multisampling.getD 1) % 256
  ImageKind.D2 ex.width ex.height 1 samples

/-- `Surface::compatibility`: capability envelope, format list and present
modes, all computed fresh from the context's window and pixel format. -/
def Surface.compatibility (s : Surface) :
    SurfaceCapabilities × Option (List Format) × List PresentMode :=
  let ex := get_window_extent s.context.window
  let extent := Extent2D.from_extent ex
  let caps : SurfaceCapabilities :=
    { image_count := if s.context.pixel_format.double_buffer then (2, 3) else (1, 2)
      current_extent := some extent
      extents := (extent,
        ⟨(ex.width + 1) % U32_MOD, (ex.height + 1) % U32_MOD⟩)
      max_image_layers := 1
      usage := COLOR_ATTACHMENT ||| TRANSFER_SRC
      composite_alpha := OPAQUE }
  let present_modes := [PresentMode.Fifo]
  (caps, some s.swapchain_formats, present_modes)

/-- `Surface::supports_queue_family`: always true. -/
def Surface.supports_queue_family (s : Surface) (q : QueueFamily) : Bool :=
  true

/-- hal `AcquireError`. -/
inductive AcquireError where
  | OutOfDate
  | SurfaceLost
  | NotReady
  deriving DecidableEq, Repr

/-- hal `window::Suboptimal` marker. -/
structure Suboptimal where
  deriving DecidableEq, Repr

/-- Backend `native::Semaphore`, observed through its signaled state. -/
structure Semaphore where
  signaled : Bool
  deriving DecidableEq, Repr

/-- Backend `native::Fence`, observed through its signaled state. -/
structure Fence where
  signaled : Bool
  deriving DecidableEq, Repr

/-- `Swapchain`: the shared context, the extent recorded at build time and
the framebuffer list (`native::FrameBuffer` is a GL object name, a number). -/
structure Swapchain where
  context : WindowedContext
  extent : Extent2D
  fbos : List Nat

/-- `Swapchain::acquire_image` stub: returns `Ok((0, None))`; the receiver
and the synchronization arguments pass through unchanged (the source ignores
`_timeout_ns`, `_semaphore` and `_fence` and never touches `self`), so the
returned tuple carries the post-call semaphore, fence and swapchain states. -/
def Swapchain.acquire_image (sc : Swapchain) (timeout_ns : Nat)
    (semaphore : Option Semaphore) (fence : Option Fence) :
    Except AcquireError (Nat × Option Suboptimal) × Option Semaphore × Option Fence × Swapchain :=
  (Except.ok (0, none), semaphore, fence, sc)

/-- Repeated calls of `acquire_image`, chaining the swapchain state. -/
def Swapchain.acquire_repeat (sc : Swapchain) (timeout_ns : Nat)
    (semaphore : Option Semaphore) (fence : Option Fence) :
    Nat → List (Except AcquireError (Nat × Option Suboptimal)) × Swapchain
  | 0 => ([], sc)
  | n + 1 =>
    let step := sc.acquire_image timeout_ns semaphore fence
    let rest := Swapchain.acquire_repeat step.2.2.2 timeout_ns semaphore fence n
    (step.1 :: rest.1, rest.2)

/-- Error kinds of this layer's failure contract (spec section 7). -/
inductive GlError where
  | ContextLost
  | UnsupportedFormat
  | SymbolResolutionFailed
  | CurrencyViolation
  deriving DecidableEq, Repr

/-- hal `Adapter`: an opaque identifier plus the proc-address resolver the
graphics API will drive entry-point loading through. -/
structure Adapter where
  info : Unit
  get_proc_address : String → Option Nat

/-- Modelled from the spec: the context's own primary symbol-resolution entry
point, the one symbol enumeration must be able to resolve. -/
def primary_entry_point : String := "glGetString"

/-- Modelled from the spec: `PhysicalDevice::new_adapter` (declared outside
this tree), building the single adapter over the supplied proc-address
resolver; "if the context cannot resolve its own symbol-resolution entry
point, enumeration must fail rather than return an adapter with a
non-functional resolver". -/
def new_adapter (resolver : String → Option Nat) : Except GlError Adapter :=
  match resolver primary_entry_point with
  | none => Except.error GlError.SymbolResolutionFailed
  | some _ => Except.ok ⟨(), resolver⟩

/-- `Instance::enumerate_adapters` for `Surface`: the one adapter over a
resolver that forwards to `self.context.get_proc_address`. -/
def Surface.enumerate_adapters (s : Surface) : Except GlError (List Adapter) :=
  match new_adapter s.context.get_proc_address with
  | Except.error e => Except.error e
  | Except.ok adapter => Except.ok [adapter]

/-- `Instance::enumerate_adapters` for `Headless`: the one adapter over a
resolver that forwards to `self.0.get_proc_address`. -/
def Headless.enumerate_adapters (h : Headless) : Except GlError (List Adapter) :=
  match new_adapter h.context.get_proc_address with
  | Except.error e => Except.error e
  | Except.ok adapter => Except.ok [adapter]

/-- Modelled from the spec: the shared-context-handle failure contract — "if
the context has been marked lost (driver-reported), every operation must fail
with a ContextLost condition rather than produce undefined values". -/
def guard_lost {α : Type} (lost : Bool) (op : α) : Except GlError α :=
  if lost then Except.error GlError.ContextLost else Except.ok op

/-- `Surface::kind` under the lost-context contract. -/
def Surface.kind_checked (s : Surface) : Except GlError ImageKind :=
  guard_lost s.context.lost s.kind

/-- `Surface::swapchain_formats` under the lost-context contract. -/
def Surface.swapchain_formats_checked (s : Surface) : Except GlError (List Format) :=
  guard_lost s.context.lost s.swapchain_formats

/-- `Surface::compatibility` under the lost-context contract. -/
def Surface.compatibility_checked (s : Surface) :
    Except GlError (SurfaceCapabilities × Option (List Format) × List PresentMode) :=
  guard_lost s.context.lost s.compatibility

/-- `Instance::enumerate_adapters` under the lost-context contract. -/
def Surface.enumerate_adapters_checked (s : Surface) : Except GlError (List Adapter) :=
  if s.context.lost then Except.error GlError.ContextLost else s.enumerate_adapters

/-- `Swapchain::acquire_image` under the lost-context contract. -/
def Swapchain.acquire_image_checked (sc : Swapchain) (timeout_ns : Nat)
    (semaphore : Option Semaphore) (fence : Option Fence) :
    Except GlError
      (Except AcquireError (Nat × Option Suboptimal) × Option Semaphore × Option Fence × Swapchain) :=
  guard_lost sc.context.lost (sc.acquire_image timeout_ns semaphore fence)

/-- A sample surface over an 800 by 600 window. -/
def sample_surface_800 : Surface :=
  ⟨⟨⟨800, 600⟩, ⟨24, 8, true, true, none⟩, fun _ => some 1, false⟩⟩

/-- A sample surface over a 1024 by 768 window. -/
def sample_surface_1024 : Surface :=
  ⟨⟨⟨1024, 768⟩, ⟨24, 8, true, true, none⟩, fun _ => some 1, false⟩⟩

/-- A sample headless context with a working resolver. -/
def sample_headless : Headless :=
  ⟨⟨fun _ => some 1, false⟩⟩

/-- A surface whose resolver resolves nothing. -/
def no_symbol_surface : Surface :=
  ⟨⟨⟨800, 600⟩, ⟨24, 8, true, true, none⟩, fun _ => none, false⟩⟩

/-- A headless context whose resolver resolves nothing. -/
def no_symbol_headless : Headless :=
  ⟨⟨fun _ => none, false⟩⟩

/-- A surface over a context the driver has marked lost. -/
def lost_surface : Surface :=
  ⟨⟨⟨800, 600⟩, ⟨24, 8, true, true, none⟩, fun _ => some 1, true⟩⟩

/-- A swapchain over a context the driver has marked lost. -/
def lost_swapchain : Swapchain :=
  ⟨⟨⟨800, 600⟩, ⟨24, 8, true, true, none⟩, fun _ => some 1, true⟩, ⟨800, 600⟩, []⟩

example :
    sample_surface_800.swapchain_formats = [Format.Rgba8Srgb, Format.Bgra8Srgb] := by
  rfl

example :
    (config_context ⟨0, 0, 0, 0, false⟩ Format.Rgba8Unorm (some Format.D24UnormS8Uint)) =
      ⟨24, 8, 24, 8, false⟩ := by
  rfl

/-- Projecting a 3D extent to a 2D one is injective when depths agree. -/
theorem from_extent_inj {e1 e2 : Extent} (hd : e1.depth = e2.depth)
    (h : Extent2D.from_extent e1 = Extent2D.from_extent e2) : e1 = e2 := by
  cases e1
  cases e2
  simp [Extent2D.from_extent, Extent2D.mk.injEq] at h
  simp_all

/-- C1: for every native pixel format, `swapchain_formats` returns exactly
`[Rgba8Srgb, Bgra8Srgb]` when the (color bits, alpha bits, srgb) tuple is
(24, 8, true), exactly `[Rgba8Unorm, Bgra8Unorm]` when it is (24, 8, false),
and the empty list for every other tuple. -/
theorem swapchain_formats_table (s : Surface) :
    s.swapchain_formats =
      if s.context.pixel_format.color_bits = 24 ∧ s.context.pixel_format.alpha_bits = 8 then
        (if s.context.pixel_format.srgb then [Format.Rgba8Srgb, Format.Bgra8Srgb]
         else [Format.Rgba8Unorm, Format.Bgra8Unorm])
      else [] := by
  rcases s with ⟨⟨w, pf, gpa, lost⟩⟩
  rcases pf with ⟨cb, ab, srgb, db, ms⟩
  unfold Surface.swapchain_formats
  dsimp only
  split
  · simp
  · simp
  · rename_i h1 h2
    rcases srgb with _ | _
    · rcases eq_or_ne cb 24 with hc | hc
      · rcases eq_or_ne ab 8 with ha | ha
        · subst hc; subst ha; exact absurd rfl (h2 rfl rfl)
        · subst hc; simp [ha]
      · simp [hc]
    · rcases eq_or_ne cb 24 with hc | hc
      · rcases eq_or_ne ab 8 with ha | ha
        · subst hc; subst ha; exact absurd rfl (h1 rfl rfl)
        · subst hc; simp [ha]
      · simp [hc]

/-- C3: for every color format and every optional depth/stencil format,
`config_context` produces a builder carrying the color format's color and
alpha bit counts, the depth/stencil format's depth and stencil bit counts
(both zero when no depth/stencil format is supplied), and the sRGB flag
enabled exactly when the color format's channel-encoding tag is sRGB. -/
theorem config_context_fields (builder : ContextBuilder) (color_format : Format)
    (ds_format : Option Format) :
    (config_context builder color_format ds_format).color_bits = color_format.bits.color ∧
    (config_context builder color_format ds_format).alpha_bits = color_format.bits.alpha ∧
    (config_context builder color_format ds_format).depth_bits =
      (match ds_format with | some fm => fm.bits.depth | none => 0) ∧
    (config_context builder color_format ds_format).stencil_bits =
      (match ds_format with | some fm => fm.bits.stencil | none => 0) ∧
    ((config_context builder color_format ds_format).srgb = true ↔
      color_format.channel_type = ChannelType.Srgb) := by
  cases ds_format <;> cases color_format <;>
    simp [config_context, ContextBuilder.with_depth_buffer, ContextBuilder.with_stencil_buffer,
      ContextBuilder.with_pixel_format, ContextBuilder.with_srgb, Format.bits,
      Format.channel_type, Format.base_format, SurfaceType.describe_bits, BITS_ZERO]

/-- C2: for every color format in the supported table and every optional
depth/stencil format, configuring a context for it and then reporting formats
back from the resulting (honoring) native pixel format yields the original
format among the reported ones, with color/alpha bit counts and
channel-encoding tag unchanged on every reported format; depth/stencil bits
of 0 correspond to supplying no depth/stencil format. -/
theorem config_report_round_trip (F : Format) (hF : F ∈ supported_color_formats)
    (ds_format : Option Format) (builder : ContextBuilder) (double_buffer : Bool)
    (multisampling : Option Nat) (w : Window) (gpa : String → Option Nat) :
    F ∈ (configured_surface builder F ds_format double_buffer multisampling w
        gpa).swapchain_formats ∧
    (∀ G ∈ (configured_surface builder F ds_format double_buffer multisampling w
        gpa).swapchain_formats,
      G.bits.color = F.bits.color ∧ G.bits.alpha = F.bits.alpha ∧
        G.channel_type = F.channel_type) ∧
    (ds_format = none →
      (config_context builder F ds_format).depth_bits = 0 ∧
      (config_context builder F ds_format).stencil_bits = 0) := by
  fin_cases hF <;> cases ds_format <;>
    simp [configured_surface, honored_pixel_format, config_context,
      ContextBuilder.with_depth_buffer, ContextBuilder.with_stencil_buffer,
      ContextBuilder.with_pixel_format, ContextBuilder.with_srgb,
      Surface.swapchain_formats, Format.bits, Format.channel_type, Format.base_format,
      SurfaceType.describe_bits, BITS_ZERO] <;>
    decide

theorem config_report_round_trip_witness :
    Format.Rgba8Srgb ∈ supported_color_formats ∧
    (Format.Rgba8Srgb ∈ (configured_surface ⟨0, 0, 0, 0, false⟩ Format.Rgba8Srgb none true none
        ⟨800, 600⟩ (fun _ => some 1)).swapchain_formats ∧
     (∀ G ∈ (configured_surface ⟨0, 0, 0, 0, false⟩ Format.Rgba8Srgb none true none
        ⟨800, 600⟩ (fun _ => some 1)).swapchain_formats,
       G.bits.color = Format.Rgba8Srgb.bits.color ∧
         G.bits.alpha = Format.Rgba8Srgb.bits.alpha ∧
         G.channel_type = Format.Rgba8Srgb.channel_type) ∧
     ((none : Option Format) = none →
       (config_context ⟨0, 0, 0, 0, false⟩ Format.Rgba8Srgb none).depth_bits = 0 ∧
       (config_context ⟨0, 0, 0, 0, false⟩ Format.Rgba8Srgb none).stencil_bits = 0)) :=
  ⟨by decide, config_report_round_trip Format.Rgba8Srgb (by decide) none ⟨0, 0, 0, 0, false⟩
      true none ⟨800, 600⟩ (fun _ => some 1)⟩

/-- C7: for every window extent, the capability envelope has image-count
range [2,3) when the native pixel format is double-buffered and [1,2) when
it is single-buffered. -/
theorem compatibility_image_count (s : Surface) :
    (s.compatibility).1.image_count =
      (if s.context.pixel_format.double_buffer then (2, 3) else (1, 2)) := by
  cases hdb : s.context.pixel_format.double_buffer <;>
    simp [Surface.compatibility, hdb]

/-- C8: the envelope's extent range is [current extent, current extent +
(1,1)) with the extent queried fresh at call time: the reported range is
built from the calling surface's own window, so two calls over different
window extents yield envelopes reflecting each call's own extent. The `+ 1`
is `u32` addition; in-range extents give the plain successor. -/
theorem compatibility_extent_fresh (s t : Surface) :
    (s.compatibility).1.current_extent =
      some (Extent2D.from_extent (get_window_extent s.context.window)) ∧
    (s.compatibility).1.extents =
      (Extent2D.from_extent (get_window_extent s.context.window),
        ⟨((get_window_extent s.context.window).width + 1) % U32_MOD,
         ((get_window_extent s.context.window).height + 1) % U32_MOD⟩) ∧
    ((get_window_extent s.context.window).width + 1 < U32_MOD →
      (get_window_extent s.context.window).height + 1 < U32_MOD →
      (s.compatibility).1.extents =
        (Extent2D.from_extent (get_window_extent s.context.window),
          ⟨(get_window_extent s.context.window).width + 1,
           (get_window_extent s.context.window).height + 1⟩)) ∧
    (get_window_extent s.context.window ≠ get_window_extent t.context.window →
      (s.compatibility).1.extents ≠ (t.compatibility).1.extents) := by
  refine ⟨rfl, rfl, ?_, ?_⟩
  · intro hw hh
    have hbase : (s.compatibility).1.extents =
        (Extent2D.from_extent (get_window_extent s.context.window),
          ⟨((get_window_extent s.context.window).width + 1) % U32_MOD,
           ((get_window_extent s.context.window).height + 1) % U32_MOD⟩) := rfl
    rw [hbase, Nat.mod_eq_of_lt hw, Nat.mod_eq_of_lt hh]
  · intro hne heq
    apply hne
    have h1 : Extent2D.from_extent (get_window_extent s.context.window) =
        Extent2D.from_extent (get_window_extent t.context.window) :=
      congrArg Prod.fst heq
    exact from_extent_inj rfl h1

theorem compatibility_extent_fresh_witness :
    (sample_surface_800.compatibility).1.extents =
      (Extent2D.mk 800 600, Extent2D.mk 801 601) ∧
    (sample_surface_800.compatibility).1.extents ≠
      (sample_surface_1024.compatibility).1.extents := by
  have h := compatibility_extent_fresh sample_surface_800 sample_surface_1024
  refine ⟨?_, h.2.2.2 (by decide)⟩
  have h3 := h.2.2.1 (by decide) (by decide)
  rw [h3]
  decide

/-- C6: for every timeout, optional semaphore/fence and call count,
`acquire_image` succeeds with image index 0 and no suboptimal flag, the
timeout is not honored (the result is the same for every timeout) and no
semaphore or fence is signaled (they pass through unchanged); repeated calls
all return the same success. -/
theorem acquire_image_stub (sc : Swapchain) (timeout_ns : Nat)
    (semaphore : Option Semaphore) (fence : Option Fence) (n : Nat) :
    (sc.acquire_image timeout_ns semaphore fence).1 = Except.ok (0, none) ∧
    (sc.acquire_image timeout_ns semaphore fence).2.1 = semaphore ∧
    (sc.acquire_image timeout_ns semaphore fence).2.2.1 = fence ∧
    (sc.acquire_repeat timeout_ns semaphore fence n).1 =
      List.replicate n (Except.ok (0, none)) := by
  refine ⟨rfl, rfl, rfl, ?_⟩
  induction n with
  | zero => rfl
  | succ k ih =>
    simp [Swapchain.acquire_repeat, Swapchain.acquire_image, List.replicate] at ih ⊢
    exact ih

/-- C10: `acquire_image` never modifies the swapchain's state: the context
handle, the stored extent and the framebuffer list are unchanged. -/
theorem acquire_image_preserves_state (sc : Swapchain) (timeout_ns : Nat)
    (semaphore : Option Semaphore) (fence : Option Fence) :
    ((sc.acquire_image timeout_ns semaphore fence).2.2.2).context = sc.context ∧
    ((sc.acquire_image timeout_ns semaphore fence).2.2.2).extent = sc.extent ∧
    ((sc.acquire_image timeout_ns semaphore fence).2.2.2).fbos = sc.fbos :=
  ⟨rfl, rfl, rfl⟩

/-- C4: when the context's symbol resolver fails to resolve its own primary
symbol-resolution entry point, `enumerate_adapters` fails with
`SymbolResolutionFailed` rather than returning an empty list or an adapter
with a non-functional resolver — for both the windowed and the headless
instance. -/
theorem enumerate_adapters_symbol_failure (s : Surface) (h : Headless)
    (hs : s.context.get_proc_address primary_entry_point = none)
    (hh : h.context.get_proc_address primary_entry_point = none) :
    s.enumerate_adapters = Except.error GlError.SymbolResolutionFailed ∧
    h.enumerate_adapters = Except.error GlError.SymbolResolutionFailed := by
  constructor <;>
    simp [Surface.enumerate_adapters, Headless.enumerate_adapters, new_adapter, hs, hh]

theorem enumerate_adapters_symbol_failure_witness :
    no_symbol_surface.context.get_proc_address primary_entry_point = none ∧
    no_symbol_headless.context.get_proc_address primary_entry_point = none ∧
    no_symbol_surface.enumerate_adapters = Except.error GlError.SymbolResolutionFailed ∧
    no_symbol_headless.enumerate_adapters = Except.error GlError.SymbolResolutionFailed :=
  ⟨rfl, rfl,
    enumerate_adapters_symbol_failure no_symbol_surface no_symbol_headless rfl rfl⟩

/-- C9: for every valid current context (one whose resolver resolves the
primary entry point), `enumerate_adapters` returns a list of exactly one
adapter, for both the windowed and the headless instance, and that adapter's
proc-address resolver forwards lookups to the owning context's native
symbol-resolution call. -/
theorem enumerate_adapters_single (s : Surface) (h : Headless)
    (hs : s.context.get_proc_address primary_entry_point ≠ none)
    (hh : h.context.get_proc_address primary_entry_point ≠ none) :
    (∃ a : Adapter, s.enumerate_adapters = Except.ok [a] ∧
      a.get_proc_address = s.context.get_proc_address) ∧
    (∃ a : Adapter, h.enumerate_adapters = Except.ok [a] ∧
      a.get_proc_address = h.context.get_proc_address) := by
  constructor
  · refine ⟨⟨(), s.context.get_proc_address⟩, ?_, rfl⟩
    rcases hres : s.context.get_proc_address primary_entry_point with _ | addr
    · exact absurd hres hs
    · simp [Surface.enumerate_adapters, new_adapter, hres]
  · refine ⟨⟨(), h.context.get_proc_address⟩, ?_, rfl⟩
    rcases hres : h.context.get_proc_address primary_entry_point with _ | addr
    · exact absurd hres hh
    · simp [Headless.enumerate_adapters, new_adapter, hres]

theorem enumerate_adapters_single_witness :
    sample_surface_800.context.get_proc_address primary_entry_point ≠ none ∧
    sample_headless.context.get_proc_address primary_entry_point ≠ none ∧
    ((∃ a : Adapter, sample_surface_800.enumerate_adapters = Except.ok [a] ∧
        a.get_proc_address = sample_surface_800.context.get_proc_address) ∧
     (∃ a : Adapter, sample_headless.enumerate_adapters = Except.ok [a] ∧
        a.get_proc_address = sample_headless.context.get_proc_address)) :=
  ⟨by decide, by decide,
    enumerate_adapters_single sample_surface_800 sample_headless (by decide) (by decide)⟩

/-- C5: every operation on a context that has been marked lost by the driver
— capability query, format reporting, adapter enumeration, image acquisition
— fails with `ContextLost` rather than producing a value. -/
theorem lost_context_fails (s : Surface) (sc : Swapchain) (timeout_ns : Nat)
    (semaphore : Option Semaphore) (fence : Option Fence)
    (hs : s.context.lost = true) (hsc : sc.context.lost = true) :
    s.kind_checked = Except.error GlError.ContextLost ∧
    s.swapchain_formats_checked = Except.error GlError.ContextLost ∧
    s.compatibility_checked = Except.error GlError.ContextLost ∧
    s.enumerate_adapters_checked = Except.error GlError.ContextLost ∧
    sc.acquire_image_checked timeout_ns semaphore fence =
      Except.error GlError.ContextLost := by
  simp [Surface.kind_checked, Surface.swapchain_formats_checked,
    Surface.compatibility_checked, Surface.enumerate_adapters_checked,
    Swapchain.acquire_image_checked, guard_lost, hs, hsc]

theorem lost_context_fails_witness :
    lost_surface.context.lost = true ∧
    lost_swapchain.context.lost = true ∧
    (lost_surface.kind_checked = Except.error GlError.ContextLost ∧
     lost_surface.swapchain_formats_checked = Except.error GlError.ContextLost ∧
     lost_surface.compatibility_checked = Except.error GlError.ContextLost ∧
     lost_surface.enumerate_adapters_checked = Except.error GlError.ContextLost ∧
     lost_swapchain.acquire_image_checked 0 none none =
       Except.error GlError.ContextLost) :=
  ⟨rfl, rfl, lost_context_fails lost_surface lost_swapchain 0 none none rfl rfl⟩
